import Mathlib

/-!
Verification development for the Runestone Python client libraries:
the SSE streaming decoders of `client-sdks/runestone_python_client.py`
(`RunestoneClient._stream_request`) and of
`docs/examples/python-client.py` (`RunestoneClient._handle_streaming_response`
and `RunestoneClient.streaming_chat`), together with client construction
(`RunestoneClient.__init__`) and `ChatCompletions.create`.

Strings are modelled by Lean `String`; the Python string primitives used by
the code (`strip`, `startswith`, slicing `s[6:]`, `rstrip`) are defined
below by structural recursion on the character list so that every
definition evaluates on concrete inputs.

The external JSON library (`json.loads`) is modelled by an arbitrary
function `parse : String → Option J`: `some v` is a successful parse
returning value `v`, `none` is a `json.JSONDecodeError`.  All theorems are
universally quantified over `parse`, and a concrete `Json` value type is
provided for instantiating them.
-/

namespace Runestone

/-- Whitespace characters removed by Python `str.strip()`. -/
def isPySpace (c : Char) : Bool :=
  c = ' ' || c = '\t' || c = '\n' || c = '\r' || c = '\x0B' || c = '\x0C'

/-- Python `s.strip()`: remove leading and trailing whitespace. -/
def pyStrip (s : String) : String :=
  String.mk (((s.data.dropWhile isPySpace).reverse.dropWhile isPySpace).reverse)

/-- Character-list core of Python `s.startswith(pre)`. -/
def startsWithChars : List Char → List Char → Bool
  | _, [] => true
  | [], _ :: _ => false
  | c :: cs, d :: ds => c = d && startsWithChars cs ds

/-- Python `s.startswith(pre)`. -/
def pyStartsWith (s pre : String) : Bool := startsWithChars s.data pre.data

/-- Python slice `s[n:]`. -/
def pySliceFrom (s : String) (n : Nat) : String := String.mk (s.data.drop n)

/-- Python `s.rstrip(c)` for a single-character argument. -/
def pyRstrip (s : String) (c : Char) : String :=
  String.mk ((s.data.reverse.dropWhile (fun d => d = c)).reverse)

/-- Python truthiness of an optional string: `None` and `""` are falsy. -/
def pyTruthy : Option String → Bool
  | none => false
  | some t => t ≠ ""

/-- JSON values, used to instantiate the decoders at concrete inputs.
The decoders themselves are parametric in the value type. -/
inductive Json where
  | null
  | bool (b : Bool)
  | num (n : Int)
  | str (s : String)
  | arr (elems : List Json)
  | obj (fields : List (String × Json))

/-- Exception taxonomy of `runestone_python_client.py`: the classes
`AuthenticationError`, `RateLimitError` and `APIError(message, status_code)`. -/
inductive RunestoneError where
  | authenticationError (msg : String)
  | rateLimitError (msg : String)
  | apiError (msg : String) (statusCode : Option Nat)
deriving DecidableEq

/-- How the underlying HTTP body stream terminates after delivering the
recorded lines/events: normal end of body, a `requests` timeout, or a
`requests` connection error carrying the exception text `str(e)`. -/
inductive StreamEnd where
  | eof
  | timeoutErr (msg : String)
  | connError (msg : String)
deriving DecidableEq

/-- Terminal observation of the SDK streaming generator: normal completion,
or a raised `RunestoneError`. -/
inductive StreamOutcome where
  | completed
  | errored (e : RunestoneError)
deriving DecidableEq

/-- An HTTP response as seen by `_stream_request`: status code, body text,
the optional parsed `error.message` field of the body (the result of
`response.json().get("error", ...).get("message", ...)` when the body is
JSON with such a field), and the SSE event payloads (`event.data` of each
event produced by `sseclient.SSEClient(response).events()`) delivered
before the stream ends. -/
structure HttpResponse where
  status : Nat
  text : String
  errorMessage : Option String
  events : List String

/-- Error message used by `_stream_request` for a non-success status:
the body's `error.message` when present, otherwise `response.text`. -/
def streamErrMsg (r : HttpResponse) : String := r.errorMessage.getD r.text

variable {J : Type}

/-- Event loop of `RunestoneClient._stream_request`
(`runestone_python_client.py` lines 153-160): for each SSE event, break on
the `[DONE]` sentinel, otherwise `json.loads` the data; a successful parse
is yielded, a `JSONDecodeError` logs a warning and continues.  Returns the
yielded values, the data strings of the warning diagnostics, and whether
the sentinel was seen. -/
def decodeEvents (parse : String → Option J) : List String → List J × List String × Bool
  | [] => ([], [], false)
  | d :: rest =>
    if d = "[DONE]" then ([], [], true)
    else
      match parse d with
      | some v =>
        let r := decodeEvents parse rest
        (v :: r.1, r.2.1, r.2.2)
      | none =>
        let r := decodeEvents parse rest
        (r.1, d :: r.2.1, r.2.2)

/-- `RunestoneClient._stream_request` (`runestone_python_client.py`
lines 124-169), observed end to end by a caller that drains the generator:
status 401 and 429 raise the typed errors, any other status at least 400
raises `APIError(error_msg, status_code)`, otherwise the event loop runs;
if the events end without the sentinel, the stream's ending determines
whether the generator completes (end of body) or a `requests` exception is
wrapped into an `APIError` (timeout / connection error); timeouts use the
client's `timeout` field.  Result: values yielded before the outcome, the
warning diagnostics, and the outcome. -/
def streamRequest (parse : String → Option J) (timeout : Nat) (resp : HttpResponse)
    (ending : StreamEnd) : List J × List String × StreamOutcome :=
  if resp.status = 401 then
    ([], [], .errored (.authenticationError "Invalid API key"))
  else if resp.status = 429 then
    ([], [], .errored (.rateLimitError "Rate limit exceeded"))
  else if 400 ≤ resp.status then
    ([], [], .errored (.apiError (streamErrMsg resp) (some resp.status)))
  else
    let r := decodeEvents parse resp.events
    if r.2.2 then (r.1, r.2.1, .completed)
    else
      match ending with
      | .eof => (r.1, r.2.1, .completed)
      | .timeoutErr _ =>
        (r.1, r.2.1,
          .errored (.apiError ("Stream timeout after " ++ toString timeout ++ " seconds") none))
      | .connError m =>
        (r.1, r.2.1,
          .errored (.apiError ("Connection error during streaming: " ++ m) none))

/-- An HTTP response as seen by the example client's streaming helpers:
status code, the text `str(e)` of the `HTTPError` that
`response.raise_for_status()` would raise for a non-success status, and
the lines delivered by `response.iter_lines()` before the stream ends. -/
structure LineResponse where
  status : Nat
  httpErrorStr : String
  lines : List String

/-- Line loop shared by `_handle_streaming_response`
(`python-client.py` lines 276-286): skip falsy (blank) lines, skip lines
not starting with `"data: "`, otherwise take `line[6:].strip()` as the
payload; break on `"[DONE]"`, yield successful `json.loads` results, and
silently continue on `JSONDecodeError`.  Returns the yielded values, the
lines left unread after a sentinel break, and whether the sentinel was
seen. -/
def processLines (parse : String → Option J) : List String → List J × List String × Bool
  | [] => ([], [], false)
  | line :: rest =>
    if line = "" then processLines parse rest
    else if pyStartsWith line "data: " then
      let data := pyStrip (pySliceFrom line 6)
      if data = "[DONE]" then ([], rest, true)
      else
        match parse data with
        | some v =>
          let r := processLines parse rest
          (v :: r.1, r.2.1, r.2.2)
        | none => processLines parse rest
    else processLines parse rest

/-- Line loop of `streaming_chat` (`python-client.py` lines 123-130): same
framing as `processLines`, but the payload string itself is yielded with no
JSON parsing. -/
def streamingChatLines : List String → List String × List String × Bool
  | [] => ([], [], false)
  | line :: rest =>
    if line = "" then streamingChatLines rest
    else if pyStartsWith line "data: " then
      let data := pyStrip (pySliceFrom line 6)
      if data = "[DONE]" then ([], rest, true)
      else
        let r := streamingChatLines rest
        (data :: r.1, r.2.1, r.2.2)
    else streamingChatLines rest

/-- Items yielded by the example client's generators: a parsed chunk
(`Sum.inl`) or the error dictionary / error string payload (`Sum.inr`). -/
def ExampleItem (J : Type) := J ⊕ String

/-- `RunestoneClient._handle_streaming_response` (`python-client.py`
lines 261-289), observed by a caller that drains the generator.  A
non-success status makes `raise_for_status` throw inside the `try`, and
any `RequestException` raised before or during iteration is caught and
turned into a final yielded item `Sum.inr ("Streaming failed: " ++ str(e))`;
the generator itself never raises. -/
def handleStreamingResponse (parse : String → Option J) (resp : LineResponse)
    (ending : StreamEnd) : List (J ⊕ String) :=
  if 400 ≤ resp.status then
    [Sum.inr ("Streaming failed: " ++ resp.httpErrorStr)]
  else
    let r := processLines parse resp.lines
    if r.2.2 then r.1.map Sum.inl
    else
      match ending with
      | .eof => r.1.map Sum.inl
      | .timeoutErr m => r.1.map Sum.inl ++ [Sum.inr ("Streaming failed: " ++ m)]
      | .connError m => r.1.map Sum.inl ++ [Sum.inr ("Streaming failed: " ++ m)]

/-- `RunestoneClient.streaming_chat` (`python-client.py` lines 88-133),
observed by a caller that drains the generator: same framing, raw payload
strings are yielded, and any `RequestException` is caught and turned into a
final yielded item `"error: " ++ str(e)`; the generator never raises. -/
def streamingChat (resp : LineResponse) (ending : StreamEnd) : List String :=
  if 400 ≤ resp.status then
    ["error: " ++ resp.httpErrorStr]
  else
    let r := streamingChatLines resp.lines
    if r.2.2 then r.1
    else
      match ending with
      | .eof => r.1
      | .timeoutErr m => r.1 ++ ["error: " ++ m]
      | .connError m => r.1 ++ ["error: " ++ m]

/-- Python-level error raised by `RunestoneClient.__init__`. -/
inductive PyError where
  | valueError (msg : String)
deriving DecidableEq

/-- Fields set by `RunestoneClient.__init__`
(`runestone_python_client.py` lines 67-88); the two headers of
`self.headers` are kept as separate fields. -/
structure ClientState where
  apiKey : String
  baseUrl : String
  timeout : Nat
  maxRetries : Nat
  authHeader : String
  contentTypeHeader : String
deriving DecidableEq

/-- `RunestoneClient.__init__`: a falsy `api_key` (absent/`None` or empty)
raises `ValueError("api_key is required")` before any assignment; otherwise
every field is initialized, with `base_url.rstrip('/')` and the
`Authorization` header `"Bearer " ++ api_key`. -/
def runestoneClientInit (apiKey : Option String) (baseUrl : String)
    (timeout maxRetries : Nat) : Except PyError ClientState :=
  if pyTruthy apiKey then
    let k := apiKey.getD ""
    .ok { apiKey := k
          baseUrl := pyRstrip baseUrl '/'
          timeout := timeout
          maxRetries := maxRetries
          authHeader := "Bearer " ++ k
          contentTypeHeader := "application/json" }
  else
    .error (.valueError "api_key is required")

/-- Keyword arguments of `ChatCompletions.create`: the `stream` flag
(`kwargs.get("stream", False)`) and the remaining request fields, which
`create` passes through without inspecting. -/
structure CreateKwargs where
  stream : Bool
  rest : List (String × String)
deriving DecidableEq

/-- Result of calling `ChatCompletions.create`: a generator object whose
body has not run (the `stream=True` branch returns
`self.client._stream_request(...)` immediately), a parsed non-streaming
body, or an exception raised synchronously by the non-streaming path. -/
inductive CreateResult (J : Type) where
  | streamGen (endpoint : String) (kwargs : CreateKwargs)
  | body (j : J)
  | raised (e : RunestoneError)

/-- `ChatCompletions.create` (`runestone_python_client.py` lines 175-183):
with `stream=True` it returns the unevaluated `_stream_request` generator;
otherwise it runs the blocking `_request` path, whose outcome (a parsed
body or a raised error) is the `nonStreamOutcome` parameter. -/
def chatCompletionsCreate (kwargs : CreateKwargs)
    (nonStreamOutcome : Except RunestoneError J) : CreateResult J :=
  if kwargs.stream then
    .streamGen "/chat/completions" kwargs
  else
    match nonStreamOutcome with
    | .ok j => .body j
    | .error e => .raised e

/-- Data frame carrying the done sentinel: non-blank, starts with the SSE
prefix, and its stripped payload is `"[DONE]"`. -/
def isDoneFrame (l : String) : Bool :=
  pyStartsWith l "data: " && pyStrip (pySliceFrom l 6) = "[DONE]"

/-- Empty string does not start with the SSE data prefix. -/
theorem pyStartsWith_empty : pyStartsWith "" "data: " = false := by decide

/-- Step lemma: a blank line is skipped. -/
theorem processLines_blank (parse : String → Option J) (rest : List String) :
    processLines parse ("" :: rest) = processLines parse rest := by
  simp [processLines]

/-- Step lemma: a line without the data prefix is skipped. -/
theorem processLines_skip {parse : String → Option J} {l : String} (rest : List String)
    (h : pyStartsWith l "data: " = false) :
    processLines parse (l :: rest) = processLines parse rest := by
  by_cases hl : l = ""
  · subst hl; simp [processLines]
  · simp [processLines, hl, h]

/-- Step lemma: a done frame breaks, leaving the tail unread. -/
theorem processLines_done {parse : String → Option J} {l : String} (rest : List String)
    (h1 : pyStartsWith l "data: " = true)
    (h2 : pyStrip (pySliceFrom l 6) = "[DONE]") :
    processLines parse (l :: rest) = ([], rest, true) := by
  have hl : l ≠ "" := by
    intro he
    rw [he, pyStartsWith_empty] at h1
    exact Bool.false_ne_true h1
  simp [processLines, hl, h1, h2]

/-- Step lemma: a data frame whose payload parses is yielded. -/
theorem processLines_yield {parse : String → Option J} {l : String} {v : J} (rest : List String)
    (h1 : pyStartsWith l "data: " = true)
    (h2 : pyStrip (pySliceFrom l 6) ≠ "[DONE]")
    (h3 : parse (pyStrip (pySliceFrom l 6)) = some v) :
    processLines parse (l :: rest) =
      (v :: (processLines parse rest).1,
       (processLines parse rest).2.1, (processLines parse rest).2.2) := by
  have hl : l ≠ "" := by
    intro he
    rw [he, pyStartsWith_empty] at h1
    exact Bool.false_ne_true h1
  simp [processLines, hl, h1, h2, h3]

/-- Step lemma: a data frame whose payload fails to parse is skipped. -/
theorem processLines_malformed {parse : String → Option J} {l : String} (rest : List String)
    (h1 : pyStartsWith l "data: " = true)
    (h2 : pyStrip (pySliceFrom l 6) ≠ "[DONE]")
    (h3 : parse (pyStrip (pySliceFrom l 6)) = none) :
    processLines parse (l :: rest) = processLines parse rest := by
  have hl : l ≠ "" := by
    intro he
    rw [he, pyStartsWith_empty] at h1
    exact Bool.false_ne_true h1
  simp [processLines, hl, h1, h2, h3]

/-- Splitting lemma: with no done frame in `pre`, decoding `pre ++ l :: post`
where `l` is a done frame yields exactly the items of `pre`, leaves `post`
unread, and reports the sentinel. -/
theorem processLines_done_split (parse : String → Option J) (pre post : List String)
    (l : String) (hpre : ∀ x ∈ pre, isDoneFrame x = false) (hl : isDoneFrame l = true) :
    processLines parse (pre ++ l :: post) = ((processLines parse pre).1, post, true) := by
  obtain ⟨h1, h2⟩ : pyStartsWith l "data: " = true ∧ pyStrip (pySliceFrom l 6) = "[DONE]" := by
    simpa [isDoneFrame] using hl
  induction pre with
  | nil =>
    rw [List.nil_append, processLines_done post h1 h2]
    simp [processLines]
  | cons x xs ih =>
    have hx := hpre x (by simp)
    have ihx := ih (fun y hy => hpre y (by simp [hy]))
    by_cases hxp : pyStartsWith x "data: " = true
    · have hxd : pyStrip (pySliceFrom x 6) ≠ "[DONE]" := by
        intro hd
        rw [isDoneFrame, hxp, hd] at hx
        simp at hx
      cases hparse : parse (pyStrip (pySliceFrom x 6)) with
      | some v =>
        rw [List.cons_append, processLines_yield _ hxp hxd hparse,
          processLines_yield _ hxp hxd hparse, ihx]
      | none =>
        rw [List.cons_append, processLines_malformed _ hxp hxd hparse,
          processLines_malformed _ hxp hxd hparse, ihx]
    · have hxp' : pyStartsWith x "data: " = false := by
        cases h : pyStartsWith x "data: " with
        | false => rfl
        | true => exact absurd h hxp
      rw [List.cons_append, processLines_skip _ hxp', processLines_skip _ hxp', ihx]

/-- Step lemma: the SDK event loop breaks on the sentinel. -/
theorem decodeEvents_done (parse : String → Option J) (rest : List String) :
    decodeEvents parse ("[DONE]" :: rest) = ([], [], true) := by
  simp [decodeEvents]

/-- Splitting lemma: with no sentinel in `pre`, the SDK event loop on
`pre ++ post` concatenates items and diagnostics of the two parts, the
sentinel flag coming from `post`. -/
theorem decodeEvents_append (parse : String → Option J) (pre post : List String)
    (h : "[DONE]" ∉ pre) :
    decodeEvents parse (pre ++ post) =
      ((decodeEvents parse pre).1 ++ (decodeEvents parse post).1,
       (decodeEvents parse pre).2.1 ++ (decodeEvents parse post).2.1,
       (decodeEvents parse post).2.2) := by
  induction pre with
  | nil => simp [decodeEvents]
  | cons d ds ih =>
    have hd : d ≠ "[DONE]" := by intro h'; exact h (by simp [h'])
    have hds : "[DONE]" ∉ ds := fun h' => h (by simp [h'])
    cases hp : parse d <;> simp [decodeEvents, hd, hp, ih hds]

/-- With no sentinel among the events, the event loop reports no sentinel. -/
theorem decodeEvents_sawDone_false (parse : String → Option J) (evs : List String)
    (h : "[DONE]" ∉ evs) : (decodeEvents parse evs).2.2 = false := by
  induction evs with
  | nil => simp [decodeEvents]
  | cons d ds ih =>
    have hd : d ≠ "[DONE]" := by intro h'; exact h (by simp [h'])
    have hds : "[DONE]" ∉ ds := fun h' => h (by simp [h'])
    cases hp : parse d <;> simp [decodeEvents, hd, hp, ih hds]

/-- Sample parse function for concrete instantiations: payloads `"one"` and
`"two"` parse to `1` and `2`, everything else is a parse failure. -/
def natParse : String → Option Nat := fun s =>
  if s = "one" then some 1 else if s = "two" then some 2 else none

/-- C1: a frame whose payload (after the prefix is stripped and whitespace
trimmed) is the `[DONE]` sentinel stops consumption: the items are exactly
those of the frames before it, the sentinel is not yielded, the lines after
it are left unread, and the loop reports normal completion.  For the SDK
event loop, an event with data `"[DONE]"` likewise yields only the earlier
items, independently of every later event. -/
theorem done_sentinel_stops_consumption (J : Type) (parse : String → Option J)
    (pre post : List String) (l : String)
    (hpre : ∀ x ∈ pre, isDoneFrame x = false) (hl : isDoneFrame l = true)
    (epre epost : List String) (hepre : "[DONE]" ∉ epre) :
    processLines parse (pre ++ l :: post) = ((processLines parse pre).1, post, true) ∧
    decodeEvents parse (epre ++ "[DONE]" :: epost) =
      ((decodeEvents parse epre).1, (decodeEvents parse epre).2.1, true) := by
  constructor
  · exact processLines_done_split parse pre post l hpre hl
  · rw [decodeEvents_append parse epre ("[DONE]" :: epost) hepre, decodeEvents_done]
    simp

/-- Witness for C1 at concrete input: one valid frame, the sentinel, and a
frame after it that stays unread. -/
theorem done_sentinel_stops_consumption_witness :
    processLines natParse ["data: one", "data: [DONE]", "data: two"] =
      ([1], ["data: two"], true) ∧
    decodeEvents natParse ["one", "[DONE]", "junk"] = ([1], [], true) := by
  have h := done_sentinel_stops_consumption Nat natParse ["data: one"] ["data: two"]
    "data: [DONE]" (by decide) (by decide) ["one"] ["junk"] (by decide)
  exact ⟨h.1.trans (by decide), h.2.trans (by decide)⟩

/-- C2: a frame whose payload fails JSON parsing is skipped without error or
termination: items before and after it are yielded in order, one diagnostic
is recorded for it, and the sentinel flag is unaffected; a stream consisting
of one malformed frame followed by the sentinel makes the whole SDK call
yield nothing, record one diagnostic, and complete normally. -/
theorem malformed_frame_skipped_with_diagnostic (J : Type) (parse : String → Option J)
    (pre post : List String) (bad : String)
    (hbad : parse bad = none) (hbd : bad ≠ "[DONE]") (hpre : "[DONE]" ∉ pre)
    (timeout : Nat) (resp : HttpResponse) (ending : StreamEnd)
    (hst : resp.status < 400) (hev : resp.events = [bad, "[DONE]"]) :
    (decodeEvents parse (pre ++ bad :: post)).1 =
      (decodeEvents parse pre).1 ++ (decodeEvents parse post).1 ∧
    (decodeEvents parse (pre ++ bad :: post)).2.1 =
      (decodeEvents parse pre).2.1 ++ bad :: (decodeEvents parse post).2.1 ∧
    (decodeEvents parse (pre ++ bad :: post)).2.2 = (decodeEvents parse post).2.2 ∧
    streamRequest parse timeout resp ending = ([], [bad], .completed) := by
  have happ := decodeEvents_append parse pre (bad :: post) hpre
  have hstep : decodeEvents parse (bad :: post) =
      ((decodeEvents parse post).1, bad :: (decodeEvents parse post).2.1,
        (decodeEvents parse post).2.2) := by
    simp [decodeEvents, hbd, hbad]
  have h1 : resp.status ≠ 401 := by omega
  have h2 : resp.status ≠ 429 := by omega
  have h3 : ¬ 400 ≤ resp.status := by omega
  refine ⟨?_, ?_, ?_, ?_⟩
  · rw [happ, hstep]
  · rw [happ, hstep]
  · rw [happ, hstep]
  · simp [streamRequest, h1, h2, h3, hev, decodeEvents, hbad, hbd]

/-- Witness for C2 at concrete input: a malformed frame between two valid
ones, and the spec scenario of one malformed frame before the sentinel. -/
theorem malformed_frame_skipped_with_diagnostic_witness :
    (decodeEvents natParse ["one", "nojson", "two"]).1 = [1, 2] ∧
    (decodeEvents natParse ["one", "nojson", "two"]).2.1 = ["nojson"] ∧
    streamRequest natParse 60 ⟨200, "", none, ["nojson", "[DONE]"]⟩ .eof =
      ([], ["nojson"], .completed) := by
  have h := malformed_frame_skipped_with_diagnostic Nat natParse ["one"] ["two"] "nojson"
    (by decide) (by decide) (by decide) 60 ⟨200, "", none, ["nojson", "[DONE]"]⟩ .eof
    (by decide) rfl
  exact ⟨h.1.trans (by decide), h.2.1.trans (by decide), h.2.2.2⟩

/-- C3: before any chunk is yielded, status 401 raises `AuthenticationError`,
status 429 raises `RateLimitError`, and any other status at least 400 raises
`APIError` carrying the body-derived message and the status; in each case no
item is yielded and the result is the same for every event list and stream
ending, so the SSE decoder is never consulted. -/
theorem prestream_status_short_circuit (J : Type) (parse : String → Option J)
    (timeout : Nat) (resp : HttpResponse) (ending : StreamEnd) :
    (resp.status = 401 →
      streamRequest parse timeout resp ending =
        ([], [], .errored (.authenticationError "Invalid API key"))) ∧
    (resp.status = 429 →
      streamRequest parse timeout resp ending =
        ([], [], .errored (.rateLimitError "Rate limit exceeded"))) ∧
    (400 ≤ resp.status → resp.status ≠ 401 → resp.status ≠ 429 →
      streamRequest parse timeout resp ending =
        ([], [], .errored (.apiError (streamErrMsg resp) (some resp.status)))) := by
  refine ⟨fun h => ?_, fun h => ?_, fun hge h1 h2 => ?_⟩
  · simp [streamRequest, h]
  · have h1 : resp.status ≠ 401 := by omega
    simp [streamRequest, h, h1]
  · simp [streamRequest, h1, h2, hge]

/-- Witness for C3 at concrete inputs: 401, 429 and 500 responses, each with
pending events that are never decoded. -/
theorem prestream_status_short_circuit_witness :
    streamRequest natParse 60 ⟨401, "unauthorized", none, ["one"]⟩ .eof =
      ([], [], .errored (.authenticationError "Invalid API key")) ∧
    streamRequest natParse 60 ⟨429, "slow down", none, ["one"]⟩ .eof =
      ([], [], .errored (.rateLimitError "Rate limit exceeded")) ∧
    streamRequest natParse 60 ⟨500, "boom", none, ["one"]⟩ .eof =
      ([], [], .errored (.apiError "boom" (some 500))) := by
  refine ⟨(prestream_status_short_circuit Nat natParse 60
      ⟨401, "unauthorized", none, ["one"]⟩ .eof).1 rfl,
    (prestream_status_short_circuit Nat natParse 60
      ⟨429, "slow down", none, ["one"]⟩ .eof).2.1 rfl,
    ((prestream_status_short_circuit Nat natParse 60
      ⟨500, "boom", none, ["one"]⟩ .eof).2.2 (by decide) (by decide) (by decide)).trans
      (by decide)⟩

/-- C4: a transport failure after the delivered events (no sentinel seen)
makes the SDK call yield exactly the chunks decoded from those events and
then raise an `APIError` whose message wraps the underlying cause (or the
client timeout for a read timeout); the single decoding pass is the whole
observation, with no retry and no further items. -/
theorem transport_failure_propagates_after_yield (J : Type) (parse : String → Option J)
    (timeout : Nat) (resp : HttpResponse) (m : String)
    (hst : resp.status < 400) (hnd : "[DONE]" ∉ resp.events) :
    streamRequest parse timeout resp (.connError m) =
      ((decodeEvents parse resp.events).1, (decodeEvents parse resp.events).2.1,
        .errored (.apiError ("Connection error during streaming: " ++ m) none)) ∧
    streamRequest parse timeout resp (.timeoutErr m) =
      ((decodeEvents parse resp.events).1, (decodeEvents parse resp.events).2.1,
        .errored (.apiError ("Stream timeout after " ++ toString timeout ++ " seconds")
          none)) := by
  have h1 : resp.status ≠ 401 := by omega
  have h2 : resp.status ≠ 429 := by omega
  have h3 : ¬ 400 ≤ resp.status := by omega
  have hdone := decodeEvents_sawDone_false parse resp.events hnd
  constructor <;> simp [streamRequest, h1, h2, h3, hdone]

/-- Witness for C4 at concrete input: the connection drops after two chunks
were yielded; the caller sees exactly those two chunks then the wrapped
error. -/
theorem transport_failure_propagates_after_yield_witness :
    streamRequest natParse 60 ⟨200, "", none, ["one", "two"]⟩
      (.connError "Connection reset by peer") =
      ([1, 2], [],
        .errored (.apiError "Connection error during streaming: Connection reset by peer"
          none)) := by
  have h := transport_failure_propagates_after_yield Nat natParse 60
    ⟨200, "", none, ["one", "two"]⟩ "Connection reset by peer" (by decide) (by decide)
  exact h.1.trans (by decide)

/-- C5: a blank line is skipped as a frame separator, a non-blank line
without the `"data: "` prefix is skipped, and for a prefixed line only the
stripped payload `line[6:].strip()` matters: two data lines with equal
payloads are processed identically. -/
theorem line_framing_rules (J : Type) (parse : String → Option J) (rest : List String)
    (l lA lB : String) (hskip : pyStartsWith l "data: " = false)
    (hA : pyStartsWith lA "data: " = true) (hB : pyStartsWith lB "data: " = true)
    (hAB : pyStrip (pySliceFrom lA 6) = pyStrip (pySliceFrom lB 6)) :
    processLines parse ("" :: rest) = processLines parse rest ∧
    processLines parse (l :: rest) = processLines parse rest ∧
    processLines parse (lA :: rest) = processLines parse (lB :: rest) := by
  refine ⟨processLines_blank parse rest, processLines_skip rest hskip, ?_⟩
  by_cases hdone : pyStrip (pySliceFrom lA 6) = "[DONE]"
  · rw [processLines_done rest hA hdone, processLines_done rest hB (hAB.symm.trans hdone)]
  · have hdoneB : pyStrip (pySliceFrom lB 6) ≠ "[DONE]" := fun h => hdone (hAB.trans h)
    cases hp : parse (pyStrip (pySliceFrom lA 6)) with
    | some v =>
      rw [processLines_yield rest hA hdone hp, processLines_yield rest hB hdoneB (hAB ▸ hp)]
    | none =>
      rw [processLines_malformed rest hA hdone hp,
        processLines_malformed rest hB hdoneB (hAB ▸ hp)]

/-- Witness for C5 at concrete input: a non-data line is skipped, and two
data lines whose payloads strip to the same string process identically. -/
theorem line_framing_rules_witness :
    processLines natParse ["", "data: two"] = processLines natParse ["data: two"] ∧
    processLines natParse ["event: ping", "data: two"] =
      processLines natParse ["data: two"] ∧
    processLines natParse ["data: one", "data: two"] =
      processLines natParse ["data:  one ", "data: two"] := by
  have h := line_framing_rules Nat natParse ["data: two"] "event: ping" "data: one"
    "data:  one " (by decide) (by decide) (by decide) (by decide)
  exact ⟨h.1, h.2.1, h.2.2.trans (by decide)⟩

/-- C6: the decoders are deterministic functions of the input byte/line
sequence: two separate decoding calls on equal inputs produce identical
ordered outputs, for the line decoder and the SDK event decoder alike. -/
theorem decoder_deterministic (J : Type) (parse : String → Option J)
    (lines1 lines2 evs1 evs2 : List String) (h : lines1 = lines2) (he : evs1 = evs2) :
    processLines parse lines1 = processLines parse lines2 ∧
    decodeEvents parse evs1 = decodeEvents parse evs2 :=
  ⟨by rw [h], by rw [he]⟩

/-- Witness for C6 at concrete input: decoding the same sequence twice. -/
theorem decoder_deterministic_witness :
    processLines natParse ["data: one", "data: [DONE]"] =
      processLines natParse ["data: one", "data: [DONE]"] ∧
    decodeEvents natParse ["one", "nojson"] = decodeEvents natParse ["one", "nojson"] :=
  decoder_deterministic Nat natParse ["data: one", "data: [DONE]"]
    ["data: one", "data: [DONE]"] ["one", "nojson"] ["one", "nojson"] rfl rfl

/-- C7: a frame whose payload parses as JSON is yielded as exactly the parsed
value, for an arbitrary value type and an arbitrary parse function: the
decoders never inspect, reject or alter the value, so unknown or additional
fields pass through unchanged and no schema validation is applied. -/
theorem valid_json_yielded_without_validation (J : Type) (parse : String → Option J)
    (l : String) (v : J) (rest : List String)
    (hl : pyStartsWith l "data: " = true)
    (hnd : pyStrip (pySliceFrom l 6) ≠ "[DONE]")
    (hp : parse (pyStrip (pySliceFrom l 6)) = some v)
    (d : String) (w : J) (hd : d ≠ "[DONE]") (hw : parse d = some w)
    (erest : List String) :
    (processLines parse (l :: rest)).1 = v :: (processLines parse rest).1 ∧
    (decodeEvents parse (d :: erest)).1 = w :: (decodeEvents parse erest).1 := by
  constructor
  · rw [processLines_yield rest hl hnd hp]
  · simp [decodeEvents, hd, hw]

/-- Sample chunk value whose object carries an unknown extra field next to
the documented ones. -/
def chunkWithExtras : Json :=
  Json.obj [("id", Json.str "c1"), ("object", Json.str "chat.completion.chunk"),
    ("choices", Json.arr [Json.obj [("delta", Json.obj [("content", Json.str "Hi")])]]),
    ("x_unknown_field", Json.num 7)]

/-- Sample parse function returning a chunk with an unknown extra field. -/
def jsonParseSample : String → Option Json := fun s =>
  if s = "chunk-with-extras" then some chunkWithExtras else none

/-- Witness for C7 at concrete input: a payload carrying an unknown extra
field is yielded intact by both decoders. -/
theorem valid_json_yielded_without_validation_witness :
    (processLines jsonParseSample ["data: chunk-with-extras"]).1 = [chunkWithExtras] ∧
    (decodeEvents jsonParseSample ["chunk-with-extras"]).1 = [chunkWithExtras] := by
  have h := valid_json_yielded_without_validation Json jsonParseSample
    "data: chunk-with-extras" chunkWithExtras [] (by decide) (by decide) rfl
    "chunk-with-extras" chunkWithExtras (by decide) rfl []
  exact ⟨h.1.trans rfl, h.2.trans rfl⟩

/-- C8: `ChatCompletions.create` with `stream=True` returns the unevaluated
`_stream_request` generator whatever the eventual request outcome would be,
so it raises nothing itself; the pre-stream status checks and typed errors
only surface when the iterator is driven, as the 401 case shows. -/
theorem create_stream_defers_errors (J : Type) (kwargs : CreateKwargs)
    (nonStreamOutcome : Except RunestoneError J) (hs : kwargs.stream = true)
    (parse : String → Option J) (timeout : Nat) (resp : HttpResponse)
    (ending : StreamEnd) (h401 : resp.status = 401) :
    chatCompletionsCreate kwargs nonStreamOutcome = .streamGen "/chat/completions" kwargs ∧
    streamRequest parse timeout resp ending =
      ([], [], .errored (.authenticationError "Invalid API key")) := by
  constructor
  · simp [chatCompletionsCreate, hs]
  · simp [streamRequest, h401]

/-- Witness for C8 at concrete input: with `stream=True`, `create` returns a
generator even when the request path would raise; driving the stream against
a 401 response is what produces `AuthenticationError`. -/
theorem create_stream_defers_errors_witness :
    chatCompletionsCreate ⟨true, [("model", "gpt-4o-mini")]⟩
      (Except.error (RunestoneError.authenticationError "Invalid API key") :
        Except RunestoneError Nat) =
      .streamGen "/chat/completions" ⟨true, [("model", "gpt-4o-mini")]⟩ ∧
    streamRequest natParse 60 ⟨401, "unauthorized", none, ["one"]⟩ .eof =
      ([], [], .errored (.authenticationError "Invalid API key")) := by
  have h := create_stream_defers_errors Nat ⟨true, [("model", "gpt-4o-mini")]⟩
    (.error (.authenticationError "Invalid API key")) rfl natParse 60
    ⟨401, "unauthorized", none, ["one"]⟩ .eof rfl
  exact ⟨h.1, h.2.trans (by decide)⟩

/-- C9: in the example client a transport failure during streaming is caught
inside the generator, which yields the error as its final item — the dict
payload `Sum.inr ("Streaming failed: " ++ msg)` for
`_handle_streaming_response` and the string `"error: " ++ msg` for
`streaming_chat` — after the items already produced, and then ends normally
(both results are plain finite lists, not raised errors). -/
theorem example_client_yields_error_item (J : Type) (parse : String → Option J)
    (resp : LineResponse) (m tm : String) (hst : resp.status < 400)
    (hnd : (processLines parse resp.lines).2.2 = false)
    (hnd2 : (streamingChatLines resp.lines).2.2 = false) :
    handleStreamingResponse parse resp (.connError m) =
      ((processLines parse resp.lines).1).map Sum.inl ++
        [Sum.inr ("Streaming failed: " ++ m)] ∧
    handleStreamingResponse parse resp (.timeoutErr tm) =
      ((processLines parse resp.lines).1).map Sum.inl ++
        [Sum.inr ("Streaming failed: " ++ tm)] ∧
    streamingChat resp (.connError m) =
      (streamingChatLines resp.lines).1 ++ ["error: " ++ m] ∧
    streamingChat resp (.timeoutErr tm) =
      (streamingChatLines resp.lines).1 ++ ["error: " ++ tm] := by
  have h3 : ¬ 400 ≤ resp.status := by omega
  refine ⟨?_, ?_, ?_, ?_⟩ <;>
    simp [handleStreamingResponse, streamingChat, h3, hnd, hnd2]

/-- Witness for C9 at concrete input: one good frame and one malformed
frame, then the connection drops; each generator ends with its error item. -/
theorem example_client_yields_error_item_witness :
    handleStreamingResponse natParse ⟨200, "", ["data: one", "data: garbage"]⟩
      (.connError "reset") =
      [Sum.inl 1, Sum.inr "Streaming failed: reset"] ∧
    streamingChat ⟨200, "", ["data: one", "data: garbage"]⟩ (.connError "reset") =
      ["one", "garbage", "error: reset"] := by
  have h := example_client_yields_error_item Nat natParse
    ⟨200, "", ["data: one", "data: garbage"]⟩ "reset" "timed out" (by decide)
    (by decide) (by decide)
  exact ⟨h.1.trans (by decide), h.2.2.1.trans (by decide)⟩

/-- C10: constructing the client with a falsy `api_key` (absent or empty)
raises `ValueError` and produces no client state at all; with any non-empty
key, construction succeeds and the `Authorization` header is exactly
`"Bearer "` followed by that key. -/
theorem client_init_api_key (baseUrl : String) (timeout maxRetries : Nat)
    (k : String) (hk : k ≠ "") :
    runestoneClientInit none baseUrl timeout maxRetries =
      .error (.valueError "api_key is required") ∧
    runestoneClientInit (some "") baseUrl timeout maxRetries =
      .error (.valueError "api_key is required") ∧
    ∃ c : ClientState, runestoneClientInit (some k) baseUrl timeout maxRetries = .ok c ∧
      c.authHeader = "Bearer " ++ k ∧ c.apiKey = k := by
  refine ⟨by simp [runestoneClientInit, pyTruthy], by simp [runestoneClientInit, pyTruthy], ?_⟩
  refine ⟨{ apiKey := k
            baseUrl := pyRstrip baseUrl '/'
            timeout := timeout
            maxRetries := maxRetries
            authHeader := "Bearer " ++ k
            contentTypeHeader := "application/json" }, ?_, rfl, rfl⟩
  simp [runestoneClientInit, pyTruthy, hk]

/-- Witness for C10 at concrete input: empty and missing keys fail, a real
key yields the expected bearer header. -/
theorem client_init_api_key_witness :
    runestoneClientInit none "http://localhost:4003/v1" 60 3 =
      .error (.valueError "api_key is required") ∧
    runestoneClientInit (some "") "http://localhost:4003/v1" 60 3 =
      .error (.valueError "api_key is required") ∧
    ∃ c : ClientState,
      runestoneClientInit (some "sk-test-001") "http://localhost:4003/v1" 60 3 = .ok c ∧
      c.authHeader = "Bearer sk-test-001" ∧ c.apiKey = "sk-test-001" := by
  have h := client_init_api_key "http://localhost:4003/v1" 60 3 "sk-test-001" (by decide)
  exact ⟨h.1, h.2.1, h.2.2⟩

end Runestone
